import Mathlib

/-!
Verification of the bus-voice-skill formatting and fetching core.

The Python modules `bus_formatter.py`, `tfl_client.py`, `lambda_function.py`
and `config.py` are embedded shallowly: dictionaries become structures with
`Option` fields where the source uses `.get` with defaults, Python `int` is
`Int` (with `Int.fdiv`/`Int.fmod` for Python floor division and modulo),
f-strings are explicit `++` concatenations, `", ".join` is the recursive
`str_join`, and Python's stable `sorted(key=...)` is `List.insertionSort`
over the key order (insertion sort computes exactly the stable sort).
-/

namespace BusVoice

/-- A raw arrival object parsed from the TfL API JSON payload
(`response.json()` in `TfLClient.get_arrivals`); each field may be absent. -/
structure RawArrival where
  lineName : Option String
  destinationName : Option String
  timeToStation : Option Int
deriving DecidableEq

/-- The projected arrival record produced by `TfLClient.get_next_buses`,
with exactly the keys `lineName`, `destinationName`, `timeToStation`. -/
structure Arrival where
  lineName : String
  destinationName : String
  timeToStation : Int
deriving DecidableEq

/-- Models Python's `sep.join(parts)`. -/
def str_join (sep : String) : List String → String
  | [] => ""
  | [p] => p
  | p :: rest => p ++ sep ++ str_join sep rest

/-- `bus_formatter.format_time_to_arrival` (lines 7-44): convert seconds to a
speech phrase.  `//` and `%` of Python are `Int.fdiv` and `Int.fmod`. -/
def format_time_to_arrival (seconds : Int) : String :=
  if seconds < 60 then "due now"
  else
    let minutes := Int.fdiv seconds 60
    if minutes = 1 then "in 1 minute"
    else if minutes < 60 then "in " ++ toString minutes ++ " minutes"
    else
      let hours := Int.fdiv minutes 60
      let remaining_minutes := Int.fmod minutes 60
      if remaining_minutes = 0 then
        if hours = 1 then "in 1 hour" else "in " ++ toString hours ++ " hours"
      else if hours = 1 then
        if remaining_minutes = 1 then "in 1 hour and 1 minute"
        else "in 1 hour and " ++ toString remaining_minutes ++ " minutes"
      else if remaining_minutes = 1 then "in " ++ toString hours ++ " hours and 1 minute"
      else "in " ++ toString hours ++ " hours and " ++ toString remaining_minutes ++ " minutes"

/-- `bus_formatter.format_single_bus` (lines 47-61). -/
def format_single_bus (arrival : Arrival) : String :=
  let route := arrival.lineName
  let destination := arrival.destinationName
  let time_str := format_time_to_arrival arrival.timeToStation
  "Route " ++ route ++ " " ++ time_str ++ " to " ++ destination

/-- `bus_formatter.format_bus_list` (lines 64-94).  The source indexes
`bus_descriptions[0]`/`[1]` in the two-bus branch and uses
`", ".join(bus_descriptions[:-1])` plus `bus_descriptions[-1]` otherwise. -/
def format_bus_list (arrivals : List Arrival) (destination_name : String) : String :=
  match arrivals with
  | [] => "No buses are scheduled to arrive at " ++ destination_name ++ " in the next hour"
  | [bus] =>
    let bus_desc := format_single_bus bus
    "The next bus to " ++ destination_name ++ " is " ++ bus_desc ++ "."
  | _ :: _ :: _ =>
    let count := arrivals.length
    let bus_descriptions := arrivals.map format_single_bus
    let buses_str :=
      if count = 2 then
        bus_descriptions.getD 0 "" ++ ", and " ++ bus_descriptions.getD 1 ""
      else
        str_join ", " bus_descriptions.dropLast ++ ", and " ++ bus_descriptions.getLastD ""
    "The next " ++ toString count ++ " buses to " ++ destination_name ++ " are: " ++ buses_str ++ "."

/-- The short per-bus phrase `f"Route {route} {time_str}"` built in the loops of
`bus_formatter.format_both_directions` (lines 112-123). -/
def short_bus_phrase (bus : Arrival) : String :=
  let route := bus.lineName
  let time_str := format_time_to_arrival bus.timeToStation
  "Route " ++ route ++ " " ++ time_str

/-- One side of `bus_formatter.format_both_directions` (the source repeats this
block verbatim for the school side, lines 128-138, and the station side,
lines 140-150): empty parts give the fixed placeholder, one part is used
as is, two parts are joined with `" and "`, and three or more are joined
with `", ".join(parts[:-1])` plus `", and "` plus `parts[-1]`. -/
def direction_part (label : String) (parts : List String) : String :=
  match parts with
  | [] => label ++ "no buses scheduled soon"
  | [p] => label ++ p
  | [p, q] => label ++ (p ++ " and " ++ q)
  | ps => label ++ (str_join ", " ps.dropLast ++ ", and " ++ ps.getLastD "")

/-- `bus_formatter.format_both_directions` (lines 97-152). -/
def format_both_directions (school_buses station_buses : List Arrival) : String :=
  let school_parts := school_buses.map short_bus_phrase
  let station_parts := station_buses.map short_bus_phrase
  let part1 := direction_part "To school: " school_parts
  let part2 := direction_part "To the station: " station_parts
  str_join ". " [part1, part2] ++ "."

/-- The sort key `lambda x: x.get("timeToStation", float("inf"))` used in
`TfLClient.get_arrivals` (line 72): a present time is its own key, an absent
one gets positive infinity (`⊤` in `WithTop Int`). -/
def sortKey (x : RawArrival) : WithTop Int :=
  match x.timeToStation with
  | some t => (t : WithTop Int)
  | none => ⊤

/-- The key comparison underlying `sorted(arrivals, key=...)`. -/
def keyLE (a b : RawArrival) : Prop := sortKey a ≤ sortKey b

instance : DecidableRel keyLE :=
  fun a b => inferInstanceAs (Decidable (sortKey a ≤ sortKey b))

instance : IsTotal RawArrival keyLE := ⟨fun a b => le_total (sortKey a) (sortKey b)⟩

instance : IsTrans RawArrival keyLE := ⟨fun _ _ _ h h' => le_trans h h'⟩

/-- `TfLClient.get_arrivals` (lines 47-79), applied to the parsed payload:
`sorted(arrivals, key=lambda x: x.get("timeToStation", float("inf")))`.
Python's `sorted` is the stable sort by the given key, which insertion sort
over the key order computes exactly. -/
def get_arrivals (payload : List RawArrival) : List RawArrival :=
  payload.insertionSort keyLE

/-- The per-record projection of `TfLClient.get_next_buses` (lines 102-109):
`bus.get("lineName", "Unknown")`, `bus.get("destinationName", "Unknown")`,
`bus.get("timeToStation", 0)`. -/
def project_bus (bus : RawArrival) : Arrival :=
  { lineName := bus.lineName.getD "Unknown"
    destinationName := bus.destinationName.getD "Unknown"
    timeToStation := bus.timeToStation.getD 0 }

/-- `TfLClient.get_next_buses` (lines 81-109), applied to the parsed payload:
fetch and sort the arrivals, slice `arrivals[:count]`, and project each
record.  `count` is the caller's clamped, non-negative bus count. -/
def get_next_buses (payload : List RawArrival) (count : Nat) : List Arrival :=
  let arrivals := get_arrivals payload
  let next_buses := arrivals.take count
  next_buses.map project_bus

/-- `config.DEFAULT_BUS_COUNT` (config.py line 16). -/
def DEFAULT_BUS_COUNT : Int := 3

/-- The numeric value of a list of decimal digit characters. -/
def digits_value (cs : List Char) : Nat :=
  cs.foldl (fun n c => n * 10 + (c.toNat - 48)) 0

/-- Models Python `int(s)` as applied to a slot string: surrounding
whitespace is ignored, then an optional sign followed by one or more decimal
digits; any other shape raises `ValueError`, modelled as `none`. -/
def python_int (s : String) : Option Int :=
  let cs := s.toList.dropWhile Char.isWhitespace
  let cs := (cs.reverse.dropWhile Char.isWhitespace).reverse
  match cs with
  | [] => none
  | '+' :: rest =>
    if rest.isEmpty then none
    else if rest.all Char.isDigit then some (digits_value rest : Int) else none
  | '-' :: rest =>
    if rest.isEmpty then none
    else if rest.all Char.isDigit then some (-(digits_value rest : Int)) else none
  | _ => if cs.all Char.isDigit then some (digits_value cs : Int) else none

/-- The count-slot logic of `CheckSchoolBusesIntentHandler.handle`
(lambda_function.py lines 52-61): start from `DEFAULT_BUS_COUNT`; if the
`count` slot is present with a truthy value, parse it with `int` and clamp
with `max(1, min(count, 10))`; a `ValueError`/`TypeError` falls back to the
default.  An absent slot, a `None` value, or an empty string (falsy values)
are modelled as `none`/`some ""`. -/
def effective_count (slot : Option String) : Int :=
  match slot with
  | none => DEFAULT_BUS_COUNT
  | some value =>
    if value = "" then DEFAULT_BUS_COUNT
    else
      match python_int value with
      | some count => max 1 (min count 10)
      | none => DEFAULT_BUS_COUNT

/-- The possible outcomes of the `tfl_client.get_next_buses` call inside the
handlers' `try` block: success, `Timeout`, `RequestException` carrying an
optional HTTP status (`e.response.status_code` when `e.response` exists and
is not `None`), or any other exception. -/
inductive FetchOutcome where
  | success (buses : List Arrival)
  | timeout
  | requestError (status : Option Int)
  | unexpected
deriving DecidableEq

/-- The `try`/`except` dispatch of `CheckSchoolBusesIntentHandler.handle`
(lambda_function.py lines 63-92), mapping the outcome of the fetch to the
spoken output. -/
def check_school_handle (outcome : FetchOutcome) : String :=
  match outcome with
  | .success buses => format_bus_list buses "school"
  | .timeout => "Sorry, Transport for London isn't responding. Please try again."
  | .requestError (some status_code) =>
    if status_code = 429 then
      "I'm checking buses too frequently. Please wait a moment and try again."
    else if 400 ≤ status_code ∧ status_code < 500 then
      "There's a problem with the bus stop configuration. Please contact support."
    else if 500 ≤ status_code ∧ status_code < 600 then
      "Transport for London is experiencing issues. Please try again later."
    else
      "I can't reach the bus information service right now."
  | .requestError none => "I can't connect to the bus information service right now."
  | .unexpected => "I received unexpected data from Transport for London."

/-- The fetch phase of `CheckBothIntentHandler.handle` (lambda_function.py
lines 151-180): `count` is set to the literal `2` and the request's slots are
never read (the `slot` argument is ignored, mirroring that the handler never
touches `handler_input.request_envelope.request.intent.slots`). -/
def check_both_fetch (_slot : Option String) (school_payload station_payload : List RawArrival) :
    List Arrival × List Arrival :=
  let count := 2
  (get_next_buses school_payload count, get_next_buses station_payload count)

/-! Specification-side definitions, written from the spec's words, to be
compared with the definitions embedded from the source. -/

/-- The spec's time-bucketing policy (spec section 4.3), stated over a
non-negative integer count of seconds. -/
def format_time_spec (s : Nat) : String :=
  if s < 60 then "due now"
  else if s < 120 then "in 1 minute"
  else if s < 3600 then "in " ++ toString (s / 60) ++ " minutes"
  else
    let minutes := s / 60
    let H := minutes / 60
    let M := minutes % 60
    if M = 0 then
      if H = 1 then "in 1 hour" else "in " ++ toString H ++ " hours"
    else if M = 1 then
      if H = 1 then "in 1 hour and 1 minute" else "in " ++ toString H ++ " hours and 1 minute"
    else if H = 1 then "in 1 hour and " ++ toString M ++ " minutes"
    else "in " ++ toString H ++ " hours and " ++ toString M ++ " minutes"

/-- The spec's multi-item join rule (spec section 4.4): all items but the last
are joined with `", "`, and the last is joined with `", and"`. -/
def spec_join : List String → String
  | [] => ""
  | [p] => p
  | [p, q] => p ++ ", and " ++ q
  | p :: rest => p ++ ", " ++ spec_join rest

/-- The join rule the combined two-direction composer actually implements for
one side (the amended form of the claim): one item plain, two items joined
with `" and "` (no comma), three or more per the `spec_join` rule. -/
def both_join : List String → String
  | [] => ""
  | [p] => p
  | [p, q] => p ++ " and " ++ q
  | p :: rest => p ++ ", " ++ spec_join rest

/-- One side of the combined two-direction sentence: the fixed placeholder for
an empty side, otherwise the short per-bus phrases joined by `both_join`. -/
def both_side_spec (buses : List Arrival) : String :=
  match buses with
  | [] => "no buses scheduled soon"
  | _ => both_join (buses.map short_bus_phrase)

/-! Helper lemmas. -/

theorem natCast_fdiv_sixty (m : Nat) : Int.fdiv (m : Int) 60 = ((m / 60 : Nat) : Int) := by
  simpa using (Int.ofNat_fdiv m 60).symm

theorem natCast_fmod_sixty (m : Nat) : Int.fmod (m : Int) 60 = ((m % 60 : Nat) : Int) := by
  simpa using (Int.ofNat_fmod m 60).symm

theorem toString_natCast (n : Nat) : toString (n : Int) = toString n := rfl

set_option maxHeartbeats 1000000 in
/-- C1: for every non-negative integer number of seconds, the source's
`format_time_to_arrival` returns exactly the phrase prescribed by the spec's
bucketing policy (`format_time_spec`). -/
theorem format_time_refines_spec (s : Nat) :
    format_time_to_arrival (s : Int) = format_time_spec s := by
  unfold format_time_to_arrival format_time_spec
  simp only [natCast_fdiv_sixty, natCast_fmod_sixty, toString_natCast]
  split_ifs <;> first | rfl | omega

theorem join_dropLast_getLastD : ∀ (rest : List String) (p q : String),
    str_join ", " ((p :: q :: rest).dropLast) ++ ", and " ++ (p :: q :: rest).getLastD "" =
      spec_join (p :: q :: rest) := by
  intro rest
  induction rest with
  | nil => intro p q; rfl
  | cons r rs ih =>
    intro p q
    have h := ih q r
    simp only [List.dropLast, str_join, spec_join, List.getLastD_cons] at h ⊢
    rw [← h]
    simp [String.append_assoc]

/-- C2: `format_bus_list` renders the empty list as the fixed no-buses
sentence with the destination label verbatim, one record as a singular
sentence around that record's description, two records with a comma before
"and", and three or more records by joining all but the last description with
", " and the last with ", and" (the `spec_join` rule). -/
theorem format_bus_list_cases (arrivals : List Arrival) (destination : String) :
    (arrivals = [] → format_bus_list arrivals destination =
      "No buses are scheduled to arrive at " ++ destination ++ " in the next hour")
    ∧ (∀ a, arrivals = [a] → format_bus_list arrivals destination =
      "The next bus to " ++ destination ++ " is " ++
        ("Route " ++ a.lineName ++ " " ++ format_time_to_arrival a.timeToStation ++ " to " ++
          a.destinationName) ++ ".")
    ∧ (∀ a b, arrivals = [a, b] → format_bus_list arrivals destination =
      "The next 2 buses to " ++ destination ++ " are: " ++
        (format_single_bus a ++ ", and " ++ format_single_bus b) ++ ".")
    ∧ (3 ≤ arrivals.length → format_bus_list arrivals destination =
      "The next " ++ toString arrivals.length ++ " buses to " ++ destination ++ " are: " ++
        spec_join (arrivals.map format_single_bus) ++ ".") := by
  refine ⟨?_, ?_, ?_, ?_⟩
  · rintro rfl; rfl
  · rintro a rfl; rfl
  · rintro a b rfl
    simp [format_bus_list, List.getD, show toString (2 : Nat) = "2" from rfl]
  · intro h3
    rcases arrivals with _ | ⟨a, _ | ⟨b, _ | ⟨c, rest⟩⟩⟩
    · simp at h3
    · simp at h3
    · simp at h3
    · simp only [format_bus_list, List.map_cons]
      rw [if_neg (by simp only [List.length_cons]; omega)]
      rw [join_dropLast_getLastD]

/-- Witness for C2: the four cases of `format_bus_list_cases` at concrete
inputs. -/
theorem format_bus_list_cases_witness :
    format_bus_list [] "school" = "No buses are scheduled to arrive at school in the next hour" ∧
    format_bus_list [⟨"25", "Oxford Circus", 120⟩] "school" =
      "The next bus to school is Route 25 in 2 minutes to Oxford Circus." ∧
    format_bus_list [⟨"73", "Victoria", 30⟩, ⟨"25", "Holborn", 90⟩] "the station" =
      "The next 2 buses to the station are: Route 73 due now to Victoria, and Route 25 in 1 minute to Holborn." ∧
    format_bus_list [⟨"73", "Victoria", 30⟩, ⟨"25", "Holborn", 90⟩, ⟨"8", "Bow", 120⟩] "school" =
      "The next 3 buses to school are: Route 73 due now to Victoria, Route 25 in 1 minute to Holborn, and Route 8 in 2 minutes to Bow." :=
  ⟨(format_bus_list_cases [] "school").1 rfl,
   (format_bus_list_cases [⟨"25", "Oxford Circus", 120⟩] "school").2.1 _ rfl,
   (format_bus_list_cases [⟨"73", "Victoria", 30⟩, ⟨"25", "Holborn", 90⟩] "the station").2.2.1 _ _ rfl,
   (format_bus_list_cases [⟨"73", "Victoria", 30⟩, ⟨"25", "Holborn", 90⟩, ⟨"8", "Bow", 120⟩]
      "school").2.2.2 (by decide)⟩

theorem spec_join_cons₃ (p q r : String) (rs : List String) :
    spec_join (p :: q :: r :: rs) = p ++ ", " ++ spec_join (q :: r :: rs) := rfl

theorem both_join_cons₃ (p q r : String) (rs : List String) :
    both_join (p :: q :: r :: rs) = p ++ ", " ++ spec_join (q :: r :: rs) := rfl

theorem direction_part_map (label : String) (buses : List Arrival) :
    direction_part label (buses.map short_bus_phrase) = label ++ both_side_spec buses := by
  rcases buses with _ | ⟨a, _ | ⟨b, _ | ⟨c, rest⟩⟩⟩
  · rfl
  · rfl
  · rfl
  · simp only [direction_part, both_side_spec, List.map_cons]
    rw [join_dropLast_getLastD, both_join_cons₃, spec_join_cons₃]

/-- C3 counterexample: with two records on the station side,
`format_both_directions` joins them with `" and "` and not with `", and "`,
so the side does not follow the single-destination comma rule the claim
asserts. -/
theorem format_both_directions_two_records_no_comma :
    format_both_directions [] [⟨"73", "Victoria", 120⟩, ⟨"25", "Holborn", 30⟩] =
      "To school: no buses scheduled soon. To the station: Route 73 in 2 minutes and Route 25 due now." ∧
    format_both_directions [] [⟨"73", "Victoria", 120⟩, ⟨"25", "Holborn", 30⟩] ≠
      "To school: no buses scheduled soon. To the station: Route 73 in 2 minutes, and Route 25 due now." :=
  ⟨rfl, by decide⟩

/-- C3 (amended): `format_both_directions` renders each non-empty side by
joining the short phrases "Route {line} {time}" — one record plain, exactly
two records joined with `" and "` (no comma), three or more joined with
`", "` and a final `", and "` — renders an empty side as the placeholder
"no buses scheduled soon", and joins the parts as
"To school: {part}. To the station: {part}."; in particular, with an empty
school list and one station record on line 73 at 120 seconds it returns
exactly the sentence of the claim. -/
theorem format_both_directions_amended :
    (∀ school station : List Arrival,
      format_both_directions school station =
        "To school: " ++ both_side_spec school ++ ". " ++
          ("To the station: " ++ both_side_spec station) ++ ".")
    ∧ (∀ d : String, format_both_directions [] [⟨"73", d, 120⟩] =
        "To school: no buses scheduled soon. To the station: Route 73 in 2 minutes.") := by
  constructor
  · intro school station
    unfold format_both_directions
    dsimp only
    rw [direction_part_map, direction_part_map]
    rfl
  · intro d
    rfl

/-- C6: the per-bus phrase of `format_single_bus` ends with exactly the
record's own `destinationName`, preserved verbatim, and the rest of the
phrase does not depend on it; the query's destination label is not an input
of `format_single_bus` at all. -/
theorem format_single_bus_own_destination (a : Arrival) (d : String) :
    ∃ p : String, format_single_bus a = p ++ a.destinationName ∧
      format_single_bus { a with destinationName := d } = p ++ d :=
  ⟨"Route " ++ a.lineName ++ " " ++ format_time_to_arrival a.timeToStation ++ " to ", rfl, rfl⟩

/-- C4: for any payload and any requested count in `[1, 10]`,
`get_next_buses` returns exactly `min (length of the sorted list) count`
records, and they are the first `count` records of the sorted list, each
projected by `project_bus`; it never pads and never errors when fewer
records exist than requested. -/
theorem get_next_buses_prefix (payload : List RawArrival) (count : Nat)
    (_h1 : 1 ≤ count) (_h2 : count ≤ 10) :
    (get_next_buses payload count).length = min (get_arrivals payload).length count ∧
    get_next_buses payload count = ((get_arrivals payload).map project_bus).take count := by
  constructor
  · simp [get_next_buses, List.length_take, Nat.min_comm]
  · simp [get_next_buses, List.map_take]

/-- Witness for C4 at a concrete one-record payload and count 3. -/
theorem get_next_buses_prefix_witness :
    (get_next_buses [⟨some "73", some "Victoria", some 120⟩] 3).length =
      min (get_arrivals [⟨some "73", some "Victoria", some 120⟩]).length 3 ∧
    get_next_buses [⟨some "73", some "Victoria", some 120⟩] 3 =
      ((get_arrivals [⟨some "73", some "Victoria", some 120⟩]).map project_bus).take 3 :=
  get_next_buses_prefix [⟨some "73", some "Victoria", some 120⟩] 3 (by decide) (by decide)

/-- The strict key order, used to state uniqueness of the sorted result. -/
def keyLT (a b : RawArrival) : Prop := sortKey a < sortKey b

instance : IsAntisymm RawArrival keyLT :=
  ⟨fun _ _ h h' => absurd (lt_trans h h') (lt_irrefl _)⟩

theorem get_arrivals_stable_filter (payload : List RawArrival) (t : WithTop Int) :
    (get_arrivals payload).filter (fun r => decide (sortKey r = t)) =
      payload.filter (fun r => decide (sortKey r = t)) := by
  set p : RawArrival → Bool := fun r => decide (sortKey r = t) with hp
  have hall : ∀ a ∈ payload.filter p, ∀ b ∈ payload.filter p, keyLE a b := by
    intro a ha b hb
    have ha' := (List.mem_filter.mp ha).2
    have hb' := (List.mem_filter.mp hb).2
    simp only [hp, decide_eq_true_eq] at ha' hb'
    exact le_of_eq (ha'.trans hb'.symm)
  have hpair : (payload.filter p).Pairwise keyLE := List.pairwise_of_forall_mem_list hall
  have hsub : List.Sublist (payload.filter p) (get_arrivals payload) :=
    List.sublist_insertionSort hpair (List.filter_sublist payload)
  have hsub2 : List.Sublist ((payload.filter p).filter p) ((get_arrivals payload).filter p) :=
    hsub.filter p
  rw [List.filter_filter] at hsub2
  simp only [Bool.and_self] at hsub2
  have hperm : ((get_arrivals payload).filter p).Perm (payload.filter p) :=
    (List.perm_insertionSort keyLE payload).filter p
  exact (hsub2.eq_of_length hperm.length_eq.symm).symm

theorem get_arrivals_unique (payload l' : List RawArrival)
    (hdist : payload.Pairwise fun a b => sortKey a ≠ sortKey b)
    (hperm : l'.Perm payload) (hsort : l'.Pairwise keyLE) :
    l' = get_arrivals payload := by
  have hperm_res : (get_arrivals payload).Perm payload := List.perm_insertionSort keyLE payload
  have hdist1 : l'.Pairwise (fun a b => sortKey a ≠ sortKey b) :=
    (hperm.pairwise_iff (fun h e => h e.symm)).mpr hdist
  have hdist2 : (get_arrivals payload).Pairwise (fun a b => sortKey a ≠ sortKey b) :=
    (hperm_res.pairwise_iff (fun h e => h e.symm)).mpr hdist
  have hlt1 : l'.Pairwise keyLT :=
    (hsort.and hdist1).imp (fun h => lt_of_le_of_ne h.1 h.2)
  have hlt2 : (get_arrivals payload).Pairwise keyLT :=
    ((List.sorted_insertionSort keyLE payload).and hdist2).imp (fun h => lt_of_le_of_ne h.1 h.2)
  exact List.eq_of_perm_of_sorted (hperm.trans hperm_res.symm) hlt1 hlt2

/-- C5: `get_arrivals` returns the parsed records sorted non-decreasingly by
`timeToStation` key (absent times count as infinity), as a permutation of
the payload; the sort is stable (each key class keeps the payload's relative
order), and when all keys are distinct any sorted permutation of the payload
coincides with it, so the result is the unique ascending order. -/
theorem get_arrivals_sorted_spec (payload : List RawArrival) :
    List.Sorted keyLE (get_arrivals payload)
    ∧ (get_arrivals payload).Perm payload
    ∧ (∀ t : WithTop Int,
        (get_arrivals payload).filter (fun r => decide (sortKey r = t)) =
          payload.filter (fun r => decide (sortKey r = t)))
    ∧ (∀ l' : List RawArrival,
        payload.Pairwise (fun a b => sortKey a ≠ sortKey b) → l'.Perm payload →
          l'.Pairwise keyLE → l' = get_arrivals payload) :=
  ⟨List.sorted_insertionSort keyLE payload, List.perm_insertionSort keyLE payload,
   get_arrivals_stable_filter payload,
   fun l' hd hp hs => get_arrivals_unique payload l' hd hp hs⟩

/-- Witness for C5: at a concrete two-record payload with distinct times, the
ascending reordering is the unique sorted permutation. -/
theorem get_arrivals_sorted_spec_witness :
    ([⟨some "25", some "Holborn", some 60⟩, ⟨some "73", some "Victoria", some 300⟩] : List RawArrival) =
      get_arrivals [⟨some "73", some "Victoria", some 300⟩, ⟨some "25", some "Holborn", some 60⟩] :=
  (get_arrivals_sorted_spec
      [⟨some "73", some "Victoria", some 300⟩, ⟨some "25", some "Holborn", some 60⟩]).2.2.2
    [⟨some "25", some "Holborn", some 60⟩, ⟨some "73", some "Victoria", some 300⟩]
    (by decide) (by decide) (by decide)

/-- C7: the single-destination handler converts every fetch failure into a
fixed spoken message: `Timeout` to the "isn't responding" message, a request
error with HTTP status 429 to the "too frequently" message, any other 4xx
status to the "configuration problem" message, any 5xx status to the
"experiencing issues" message, any other status or an absent response to one
of the two generic can't-reach/can't-connect messages, and any other
exception to the "unexpected data" message; every non-success outcome maps
into this fixed message set, so no error propagates as a raw error. -/
theorem check_school_handle_messages (status : Int) :
    check_school_handle .timeout =
      "Sorry, Transport for London isn't responding. Please try again."
    ∧ check_school_handle (.requestError (some 429)) =
      "I'm checking buses too frequently. Please wait a moment and try again."
    ∧ (400 ≤ status → status < 500 → status ≠ 429 →
        check_school_handle (.requestError (some status)) =
          "There's a problem with the bus stop configuration. Please contact support.")
    ∧ (500 ≤ status → status < 600 →
        check_school_handle (.requestError (some status)) =
          "Transport for London is experiencing issues. Please try again later.")
    ∧ ((status < 400 ∨ 600 ≤ status) →
        check_school_handle (.requestError (some status)) =
          "I can't reach the bus information service right now.")
    ∧ check_school_handle (.requestError none) =
      "I can't connect to the bus information service right now."
    ∧ check_school_handle .unexpected =
      "I received unexpected data from Transport for London."
    ∧ (∀ outcome : FetchOutcome, (∀ buses, outcome ≠ .success buses) →
        check_school_handle outcome ∈
          ["Sorry, Transport for London isn't responding. Please try again.",
           "I'm checking buses too frequently. Please wait a moment and try again.",
           "There's a problem with the bus stop configuration. Please contact support.",
           "Transport for London is experiencing issues. Please try again later.",
           "I can't reach the bus information service right now.",
           "I can't connect to the bus information service right now.",
           "I received unexpected data from Transport for London."]) := by
  refine ⟨rfl, rfl, ?_, ?_, ?_, rfl, rfl, ?_⟩
  · intro ha hb hc
    simp only [check_school_handle]
    rw [if_neg hc, if_pos ⟨ha, hb⟩]
  · intro ha hb
    simp only [check_school_handle]
    rw [if_neg (by omega), if_neg (by omega), if_pos ⟨ha, hb⟩]
  · intro h
    simp only [check_school_handle]
    rw [if_neg (by omega), if_neg (by omega), if_neg (by omega)]
  · intro outcome hne
    cases outcome with
    | success buses => exact absurd rfl (hne buses)
    | timeout => simp [check_school_handle]
    | unexpected => simp [check_school_handle]
    | requestError st =>
      cases st with
      | none => simp [check_school_handle]
      | some s =>
        simp only [check_school_handle]
        split_ifs <;> simp

/-- Witness for C7 at the concrete statuses 404, 503 and 301 and an absent
response. -/
theorem check_school_handle_messages_witness :
    check_school_handle (.requestError (some 404)) =
      "There's a problem with the bus stop configuration. Please contact support."
    ∧ check_school_handle (.requestError (some 503)) =
      "Transport for London is experiencing issues. Please try again later."
    ∧ check_school_handle (.requestError (some 301)) =
      "I can't reach the bus information service right now."
    ∧ check_school_handle (.requestError none) =
      "I can't connect to the bus information service right now." :=
  ⟨(check_school_handle_messages 404).2.2.1 (by decide) (by decide) (by decide),
   (check_school_handle_messages 503).2.2.2.1 (by decide) (by decide),
   (check_school_handle_messages 301).2.2.2.2.1 (Or.inl (by decide)),
   (check_school_handle_messages 0).2.2.2.2.2.1⟩

/-- C8: the effective bus count is `max 1 (min v 10)` (hence always in
`[1, 10]`) when the `count` slot holds a value that `int` parses as `v`, and
silently falls back to the default 3 when the slot is absent, empty, or not
parseable as an integer. -/
theorem effective_count_clamps (slot : Option String) :
    (∀ s v, slot = some s → python_int s = some v →
      effective_count slot = max 1 (min v 10) ∧
      1 ≤ effective_count slot ∧ effective_count slot ≤ 10)
    ∧ (slot = none → effective_count slot = DEFAULT_BUS_COUNT)
    ∧ (∀ s, slot = some s → python_int s = none →
        effective_count slot = DEFAULT_BUS_COUNT)
    ∧ DEFAULT_BUS_COUNT = 3 := by
  refine ⟨?_, ?_, ?_, rfl⟩
  · rintro s v rfl hv
    have hs : s ≠ "" := by
      rintro rfl
      rw [show python_int "" = none from rfl] at hv
      exact Option.noConfusion hv
    have he : effective_count (some s) = max 1 (min v 10) := by
      simp only [effective_count, if_neg hs, hv]
    refine ⟨he, ?_, ?_⟩
    · rw [he]; exact le_max_left 1 _
    · rw [he]; exact max_le (by norm_num) (le_trans (min_le_right v 10) (by norm_num))
  · rintro rfl; rfl
  · rintro s rfl hnone
    by_cases hs : s = ""
    · subst hs; rfl
    · simp only [effective_count, if_neg hs, hnone]

/-- Witness for C8: a parseable value above the cap clamps to 10, an absent
slot and a non-numeric value fall back to the default. -/
theorem effective_count_clamps_witness :
    (effective_count (some "25") = max 1 (min 25 10) ∧
      1 ≤ effective_count (some "25") ∧ effective_count (some "25") ≤ 10)
    ∧ effective_count none = DEFAULT_BUS_COUNT
    ∧ effective_count (some "soon") = DEFAULT_BUS_COUNT :=
  ⟨(effective_count_clamps (some "25")).1 "25" 25 rfl (by decide),
   (effective_count_clamps none).2.1 rfl,
   (effective_count_clamps (some "soon")).2.2.1 "soon" rfl (by decide)⟩

/-- C9: the combined two-destination handler requests exactly 2 arrivals per
side: its result is independent of the user's count slot, equals the
two fetches with count 2, each side never exceeds 2 records, and 2 differs
from the configured default 3 used by the single-destination queries. -/
theorem check_both_fetch_count (slot slot' : Option String)
    (sp st : List RawArrival) :
    check_both_fetch slot sp st = check_both_fetch slot' sp st
    ∧ check_both_fetch slot sp st = (get_next_buses sp 2, get_next_buses st 2)
    ∧ (2 : Int) ≠ DEFAULT_BUS_COUNT
    ∧ (check_both_fetch slot sp st).1.length ≤ 2
    ∧ (check_both_fetch slot sp st).2.length ≤ 2 := by
  refine ⟨rfl, rfl, by decide, ?_, ?_⟩
  · simp only [check_both_fetch, get_next_buses, List.length_map, List.length_take]
    omega
  · simp only [check_both_fetch, get_next_buses, List.length_map, List.length_take]
    omega

/-- C10: a raw record lacking `timeToStation` is ordered by `get_arrivals`
after every record that has one (its key defaults to infinity), yet
`get_next_buses` projects its missing time to 0, which
`format_time_to_arrival` speaks as "due now". -/
theorem missing_time_last_but_due_now :
    (∀ (payload : List RawArrival) (i j : Nat)
      (hi : i < (get_arrivals payload).length) (hj : j < (get_arrivals payload).length),
      ((get_arrivals payload).get ⟨i, hi⟩).timeToStation.isSome →
      ((get_arrivals payload).get ⟨j, hj⟩).timeToStation = none → i < j)
    ∧ (∀ r : RawArrival, r.timeToStation = none →
        (project_bus r).timeToStation = 0 ∧
        format_time_to_arrival (project_bus r).timeToStation = "due now") := by
  constructor
  · intro payload i j hi hj hsome hnone
    by_contra hij
    have hne : i ≠ j := by
      intro h
      subst h
      rw [hnone] at hsome
      simp at hsome
    have hji : j < i := by omega
    have hrel : keyLE ((get_arrivals payload).get ⟨j, hj⟩) ((get_arrivals payload).get ⟨i, hi⟩) :=
      (List.sorted_insertionSort keyLE payload).rel_get_of_lt hji
    obtain ⟨t, ht⟩ := Option.isSome_iff_exists.mp hsome
    unfold keyLE sortKey at hrel
    rw [hnone, ht] at hrel
    simp at hrel
  · intro r h
    have h0 : (project_bus r).timeToStation = 0 := by simp [project_bus, h]
    exact ⟨h0, by rw [h0]; rfl⟩

/-- Witness for C10: in a payload of one timed and one time-less record, the
sorted list puts the timed record first (index 0) and the time-less one last
(index 1), while the projection of the time-less record is spoken "due now". -/
theorem missing_time_last_but_due_now_witness :
    (0 : Nat) < 1
    ∧ (project_bus ⟨some "73", some "Victoria", none⟩).timeToStation = 0
    ∧ format_time_to_arrival (project_bus ⟨some "73", some "Victoria", none⟩).timeToStation =
        "due now" :=
  ⟨missing_time_last_but_due_now.1
      [⟨some "25", some "Holborn", some 120⟩, ⟨some "73", some "Victoria", none⟩] 0 1
      (by decide) (by decide) (by decide) (by decide),
   (missing_time_last_but_due_now.2 ⟨some "73", some "Victoria", none⟩ rfl).1,
   (missing_time_last_but_due_now.2 ⟨some "73", some "Victoria", none⟩ rfl).2⟩

end BusVoice
